import Mathlib

/-!
Verification of the FHL Bible MCP server (ytssamuel/FHL-MCP-Server).

This development shallowly embeds the JSON-RPC tool dispatcher of
`src/fhl_bible_mcp/http_server.py` and the response normalizers of
`src/fhl_bible_mcp/http_tools.py`.  JSON values exchanged between the
transport, the dispatcher and the upstream Bible API are modelled by the
inductive type `JVal`; Python code that can raise is modelled in the
`Except PyErr` monad; the `try/except` blocks of the source become explicit
recoveries of that monad.
-/

set_option maxHeartbeats 1000000
set_option maxRecDepth 4000

namespace FHL

/-- JSON values (Python `None` / `bool` / `int` / `str` / `list` / `dict`).
Floating point payloads do not occur on any modelled path and are omitted. -/
inductive JVal where
  | null
  | bool (b : Bool)
  | int (n : Int)
  | str (s : String)
  | arr (elems : List JVal)
  | obj (fields : List (String × JVal))
deriving Repr, Inhabited

/-- Python exceptions raised by the embedded code. -/
inductive PyErr where
  | keyError (key : String)
  | indexError
  | typeError (msg : String)
  | valueError (msg : String)
  | attributeError (msg : String)
  | exn (msg : String)
deriving Repr, DecidableEq

/-- Python `str(e)` for the exceptions above (used by the dispatcher when it
converts a caught exception into a JSON-RPC error message).  `str` of a
`KeyError` is the quoted key, as in CPython. -/
def pyErrStr : PyErr → String
  | .keyError k => "\x27" ++ k ++ "\x27"
  | .indexError => "list index out of range"
  | .typeError m => m
  | .valueError m => m
  | .attributeError m => m
  | .exn m => m

/-- First-match association-list lookup (Python `dict` access; the embedded
literals have unique keys, so first-match agrees with `dict` semantics). -/
def assocGet {α : Type} : List (String × α) → String → Option α
  | [], _ => none
  | (k, v) :: rest, key => if k = key then some v else assocGet rest key

/-- Python `d[key] = v` on an association list. -/
def assocSet {α : Type} : List (String × α) → String → α → List (String × α)
  | [], key, v => [(key, v)]
  | (k, w) :: rest, key, v =>
      if k = key then (k, v) :: rest else (k, w) :: assocSet rest key v

/-- Python `d.get(key, default)` on a dict's field list (total; no raise). -/
def dictGetD (fields : List (String × JVal)) (key : String) (dflt : JVal) : JVal :=
  (assocGet fields key).getD dflt

/-- Python `v.get(key)` (default `None`); raises `AttributeError` when `v`
is not a dict. -/
def pyGet (v : JVal) (key : String) : Except PyErr JVal :=
  match v with
  | .obj fields => .ok (dictGetD fields key .null)
  | _ => .error (.attributeError "get")

/-- Python `v.get(key, dflt)`; raises `AttributeError` when `v` is not a dict. -/
def pyGetD (v : JVal) (key : String) (dflt : JVal) : Except PyErr JVal :=
  match v with
  | .obj fields => .ok (dictGetD fields key dflt)
  | _ => .error (.attributeError "get")

/-- Python `v[key]` subscription on a dict: `KeyError` when absent,
`TypeError` when `v` is not a dict. -/
def pySubscript (v : JVal) (key : String) : Except PyErr JVal :=
  match v with
  | .obj fields =>
      match assocGet fields key with
      | some w => .ok w
      | none => .error (.keyError key)
  | _ => .error (.typeError "object is not subscriptable")

/-- Python `v[i]` indexing on a list: `IndexError` when out of range,
`TypeError` when `v` is not a list. -/
def pyIndex (v : JVal) (i : Nat) : Except PyErr JVal :=
  match v with
  | .arr elems =>
      match elems.get? i with
      | some w => .ok w
      | none => .error .indexError
  | _ => .error (.typeError "object is not subscriptable")

/-- Python `v == s` against a string literal (cross-type comparison is `False`). -/
def jEqStr (v : JVal) (s : String) : Bool :=
  match v with
  | .str t => t == s
  | _ => false

/-- Python `v == n` against an `int` literal.  Python compares `bool` and
`int` numerically (`True == 1`), which is preserved here; all other
cross-type comparisons are `False`. -/
def jEqInt (v : JVal) (n : Int) : Bool :=
  match v with
  | .int m => m == n
  | .bool b => (if b then (1 : Int) else 0) == n
  | _ => false

/-- Python `v is None`. -/
def JVal.isNull : JVal → Bool
  | .null => true
  | _ => false

/-- Python truthiness of a JSON value. -/
def pyTruthy : JVal → Bool
  | .null => false
  | .bool b => b
  | .int n => n != 0
  | .str s => !s.isEmpty
  | .arr elems => !elems.isEmpty
  | .obj fields => !fields.isEmpty

/-- Python `v > 0` as it appears in `record_count > 0` comparisons:
ints (and bools, which are ints in Python) compare numerically, any other
operand raises `TypeError`. -/
def pyGtZero (v : JVal) : Except PyErr Bool :=
  match v with
  | .int n => .ok (0 < n)
  | .bool b => .ok (0 < (if b then (1 : Int) else 0))
  | _ => .error (.typeError "not supported between instances")

/-- Python `s.lower()`; the messages this is applied to are ASCII, so the
ASCII lowering of `Char.toLower` coincides with Python. Raises
`AttributeError` on non-strings. -/
def pyLowerString (s : String) : String := String.mk (s.toList.map Char.toLower)

/-- Python `v.lower()` on a JSON value. -/
def pyLower (v : JVal) : Except PyErr String :=
  match v with
  | .str s => .ok (pyLowerString s)
  | _ => .error (.attributeError "lower")

/-- Python `needle in hay` on character lists: `needle` is a prefix of some suffix. -/
def listInfixOf (needle : List Char) : List Char → Bool
  | [] => needle.isEmpty
  | c :: rest => needle.isPrefixOf (c :: rest) || listInfixOf needle rest

/-- Python `needle in hay` substring test. -/
def strContains (needle hay : String) : Bool :=
  listInfixOf needle.toList hay.toList

/-- Split a character list at its first `>`: returns the characters strictly
before it and the ones strictly after it. -/
def splitAtGt : List Char → Option (List Char × List Char)
  | [] => none
  | c :: cs =>
      if c = '>' then some ([], cs)
      else
        match splitAtGt cs with
        | some (inside, after) => some (c :: inside, after)
        | none => none

/-- Computation of `re.sub(r'<[^>]+>', '', s)` on the character list of `s`: remove every
leftmost non-overlapping run `<`, one-or-more non-`>` characters, `>`.  Each
recursive call strictly shortens the list, so running the scan with the
length of the list as fuel computes the full substitution (the zero-fuel
fallback is unreachable from `stripTags`, which supplies that much fuel). -/
def stripTagsAux : Nat → List Char → List Char
  | _, [] => []
  | 0, l => l
  | fuel + 1, c :: cs =>
      if c = '<' then
        match splitAtGt cs with
        | some (inside, after) =>
            if inside.isEmpty then c :: stripTagsAux fuel cs
            else stripTagsAux fuel after
        | none => c :: stripTagsAux fuel cs
      else c :: stripTagsAux fuel cs

/-- Python `re.sub(r'<[^>]+>', '', s)`: strip embedded HTML markup, as used for the
article content preview in `http_search_articles`. -/
def stripTags (s : String) : String :=
  String.mk (stripTagsAux s.data.length s.data)

/-- Minimal JSON string escaping (quote, backslash and common controls);
`json.dumps(..., ensure_ascii=False)` keeps other characters verbatim. -/
def jsonEscapeChar (c : Char) : String :=
  if c = '"' then "\\\""
  else if c = '\\' then "\\\\"
  else if c = '\n' then "\\n"
  else if c = '\r' then "\\r"
  else if c = '\t' then "\\t"
  else String.mk [c]

def jsonEscape (s : String) : String :=
  String.join (s.data.map jsonEscapeChar)

mutual

/-- Python `json.dumps(v, ensure_ascii=False)`.  The dispatcher serialises tool
results with `indent=2`; the pretty-printing whitespace is abstracted here
(the serialised text is an opaque payload to every property below). -/
def jsonDumps : JVal → String
  | .null => "null"
  | .bool true => "true"
  | .bool false => "false"
  | .int n => toString n
  | .str s => "\"" ++ jsonEscape s ++ "\""
  | .arr elems => "[" ++ jsonDumpsList elems ++ "]"
  | .obj fields => "\x7b" ++ jsonDumpsFields fields ++ "\x7d"

def jsonDumpsList : List JVal → String
  | [] => ""
  | [v] => jsonDumps v
  | v :: rest => jsonDumps v ++ ", " ++ jsonDumpsList rest

def jsonDumpsFields : List (String × JVal) → String
  | [] => ""
  | [(k, v)] => "\"" ++ jsonEscape k ++ "\": " ++ jsonDumps v
  | (k, v) :: rest =>
      "\"" ++ jsonEscape k ++ "\": " ++ jsonDumps v ++ ", " ++ jsonDumpsFields rest

end

/-- Python `f text interpolation of a value (used in `f`-string error
messages such as `Unknown tool: ...`).  For strings this is the string
itself; container values are shown via their JSON rendering (Python's
`repr` quoting differs, but no modelled property observes that text). -/
def pyFormat : JVal → String
  | .null => "None"
  | .bool true => "True"
  | .bool false => "False"
  | .int n => toString n
  | .str s => s
  | .arr elems => jsonDumps (.arr elems)
  | .obj fields => jsonDumps (.obj fields)

/-! ## Response normalizers (`src/fhl_bible_mcp/http_tools.py`)

Each normalizer below is the part of the corresponding `http_...` wrapper
that runs after the upstream call returns: a function of the raw upstream
JSON payload and the original request parameters. -/

/-- Embedding of `http_get_bible_footnote` (http_tools.py lines 385-426), as a function
of the upstream payload of `api.get_footnote` and the request parameters. -/
def http_get_bible_footnote (result : JVal) (book_id footnote_id : Int) :
    Except PyErr JVal :=
  match pyGet result "status" with
  | .error e => .error e
  | .ok statusV =>
    if jEqStr statusV "success" then
      match pyGetD result "record_count" (.int 0) with
      | .error e => .error e
      | .ok recordCountV =>
        match pyGetD result "engs" (.str "") with
        | .error e => .error e
        | .ok engsV =>
          match pyGtZero recordCountV with
          | .error e => .error e
          | .ok positive =>
            if positive then
              match pySubscript result "record" with
              | .error e => .error e
              | .ok recordsV =>
                match pyIndex recordsV 0 with
                | .error e => .error e
                | .ok record =>
                  match pyGetD record "id" (.int footnote_id) with
                  | .error e => .error e
                  | .ok fidV =>
                    match pyGetD record "text" (.str "") with
                    | .error e => .error e
                    | .ok textV =>
                      .ok (.obj [("status", .str "success"),
                        ("query_type", .str "bible_footnote"),
                        ("version", .str "TCV"),
                        ("version_name", .str "現代中文譯本"),
                        ("book_id", .int book_id),
                        ("book_name", engsV),
                        ("footnote_id", fidV),
                        ("text", textV)])
            else
              .ok (.obj [("status", .str "not_found"),
                ("message", .str ("找不到書卷 " ++ toString book_id ++
                  " 的註腳 #" ++ toString footnote_id))])
    else
      match pyGetD result "error" (.str "未知錯誤") with
      | .error e => .error e
      | .ok errV => .ok (.obj [("status", .str "error"), ("error", errV)])

/-- The truncated preview computed by `http_search_articles` when
`include_content` is false: strip markup, keep the first 200 characters and
append an ellipsis marker only when the cleaned text is longer than 200. -/
def content_preview_of (s : String) : String :=
  let clean := stripTags s
  if clean.length > 200 then clean.take 200 ++ "..." else clean

/-- The per-article formatting step of the `for article in articles` loop of
`http_search_articles` (http_tools.py lines 471-492).  `article.get` raises
`AttributeError` when the upstream record element is not a dict; `re.sub`
raises `TypeError` when the content value is not a string. -/
def format_article (include_content : Bool) : JVal → Except PyErr JVal
  | .obj a =>
      let base : List (String × JVal) :=
        [("id", dictGetD a "id" (.str "")),
         ("title", dictGetD a "title" (.str "")),
         ("author", dictGetD a "author" (.str "")),
         ("pubtime", dictGetD a "pubtime" (.str "")),
         ("column", dictGetD a "column" (.str "")),
         ("abstract", dictGetD a "abst" (.str ""))]
      if include_content then
        .ok (.obj (base ++ [("content", dictGetD a "content" (.str ""))]))
      else
        let fullContent := dictGetD a "content" (.str "")
        if pyTruthy fullContent then
          match fullContent with
          | .str s =>
              .ok (.obj (base ++
                [("content_preview", .str (content_preview_of s))]))
          | _ => .error (.typeError "expected string or bytes-like object")
        else
          .ok (.obj base)
  | _ => .error (.attributeError "get")

/-- The article-formatting loop of `http_search_articles`. -/
def format_articles (include_content : Bool) : List JVal → Except PyErr (List JVal)
  | [] => .ok []
  | a :: rest =>
      match format_article include_content a with
      | .error e => .error e
      | .ok f =>
          match format_articles include_content rest with
          | .error e => .error e
          | .ok fs => .ok (f :: fs)

/-- Embedding of `http_search_articles` (http_tools.py lines 433-527), as a function of
the upstream payload of `api.search_articles` and the `include_content`
request parameter.  The upstream signals success with integer `status` 1 and
failure with integer `status` 0 whose message is under the `result` key.
Iterating a truthy non-list `record` value raises: strings and dicts iterate
into string elements whose `.get` raises `AttributeError`, other scalars
raise `TypeError` at the `for` loop. -/
def http_search_articles (result : JVal) (include_content : Bool) :
    Except PyErr JVal :=
  match pyGet result "status" with
  | .error e => .error e
  | .ok statusV =>
    match
      ((if jEqInt statusV 1 then
        match pyGetD result "record_count" (.int 0) with
        | .error e => .error e
        | .ok rc => pyGtZero rc
      else .ok false) : Except PyErr Bool) with
    | .error e => .error e
    | .ok firstCond =>
      if firstCond then
        match pyGetD result "record" (.arr []) with
        | .error e => .error e
        | .ok articlesV =>
          if !pyTruthy articlesV then
            .ok (.obj [("status", .str "no_results"),
              ("query_type", .str "article_search"),
              ("message", .str "未找到符合條件的文章")])
          else
            match articlesV with
            | .arr articles =>
              match format_articles include_content articles with
              | .error e => .error e
              | .ok formatted =>
                match pyGetD result "record_count" (.int formatted.length) with
                | .error e => .error e
                | .ok totalV =>
                  .ok (.obj [("status", .str "success"),
                    ("query_type", .str "article_search"),
                    ("total_count", totalV),
                    ("returned_count", .int formatted.length),
                    ("include_full_content", .bool include_content),
                    ("articles", .arr formatted)])
            | .str _ => .error (.attributeError "get")
            | .obj _ => .error (.attributeError "get")
            | _ => .error (.typeError "object is not iterable")
      else if jEqInt statusV 0 then
        match pyGetD result "result" (.str "Unknown error") with
        | .error e => .error e
        | .ok errorMsgV =>
          match pyLower errorMsgV with
          | .error e => .error e
          | .ok lowered =>
            if strContains "data too much" lowered then
              .ok (.obj [("status", .str "error"),
                ("error", .str "資料量過大，請提供至少一個搜尋條件"),
                ("hint", .str "請使用 title, author, content, abstract, column 或 pub_date 參數")])
            else if strContains "no data" lowered then
              .ok (.obj [("status", .str "no_results"),
                ("message", .str "未找到符合條件的文章")])
            else
              .ok (.obj [("status", .str "error"), ("error", errorMsgV)])
      else
        .ok (.obj [("status", .str "no_results"),
          ("query_type", .str "article_search"),
          ("message", .str "未找到符合條件的文章")])

/-- Modelled from the spec: the upstream article-search endpoint
(`FHLAPIEndpoints.search_articles`, in `fhl_bible_mcp/api/endpoints.py`,
which is not part of the sources under study) rejects a query with zero
search fields set as an over-broad query, signalling failure with integer
`status` 0 and a message containing `data too much` under the `result` key —
the condition the spec scenario for `search_fhl_articles()` with no search
fields relies on. -/
def search_articles_zero_fields_upstream : JVal :=
  .obj [("status", .int 0), ("result", .str "data too much")]

/-! ## Tool catalog and dispatcher (`src/fhl_bible_mcp/http_server.py`) -/

/-- The tool catalog built by `FHLBibleHTTPServer._build_tools_list`
(http_server.py lines 98-460): one descriptor per tool, each with its
`name`, `description` and JSON-Schema `inputSchema`. -/
def build_tools_list : List JVal :=
 [.obj [
    ("name", .str "get_bible_verse"),
    ("description", .str "查詢聖經經文。支援多種格式：\x27約 3:16\x27、\x27John 3:16\x27、\x27約翰福音 3:16\x27"),
    ("inputSchema", .obj [
      ("type", .str "object"),
      ("properties", .obj [
        ("book", .obj [
          ("type", .str "string"),
          ("description", .str "書卷名稱")]),
        ("chapter", .obj [
          ("type", .str "integer"),
          ("description", .str "章數")]),
        ("verse", .obj [
          ("type", .str "string"),
          ("description", .str "節數（可選，支援範圍如 \x271-5\x27 或 \x271,3,5\x27）")]),
        ("version", .obj [
          ("type", .str "string"),
          ("description", .str "聖經版本代碼（預設：unv）")]),
        ("include_strong", .obj [
          ("type", .str "boolean"),
          ("description", .str "是否包含 Strong\x27s Number")]),
        ("use_simplified", .obj [
          ("type", .str "boolean"),
          ("description", .str "是否使用簡體中文")])]),
      ("required", .arr [.str "book", .str "chapter"])])],
  .obj [
    ("name", .str "get_bible_chapter"),
    ("description", .str "查詢整章聖經經文。"),
    ("inputSchema", .obj [
      ("type", .str "object"),
      ("properties", .obj [
        ("book", .obj [
          ("type", .str "string"),
          ("description", .str "書卷名稱")]),
        ("chapter", .obj [
          ("type", .str "integer"),
          ("description", .str "章數")]),
        ("version", .obj [
          ("type", .str "string"),
          ("description", .str "聖經版本代碼")]),
        ("use_simplified", .obj [
          ("type", .str "boolean"),
          ("description", .str "是否使用簡體中文")])]),
      ("required", .arr [.str "book", .str "chapter"])])],
  .obj [
    ("name", .str "query_verse_citation"),
    ("description", .str "解析並查詢經文引用字串（如：\x27約 3:16\x27, \x27太 5:3-10\x27）。"),
    ("inputSchema", .obj [
      ("type", .str "object"),
      ("properties", .obj [
        ("citation", .obj [
          ("type", .str "string"),
          ("description", .str "經文引用字串")]),
        ("version", .obj [
          ("type", .str "string"),
          ("description", .str "聖經版本代碼")]),
        ("include_strong", .obj [
          ("type", .str "boolean"),
          ("description", .str "是否包含 Strong\x27s Number")]),
        ("use_simplified", .obj [
          ("type", .str "boolean"),
          ("description", .str "是否使用簡體中文")])]),
      ("required", .arr [.str "citation"])])],
  .obj [
    ("name", .str "search_bible"),
    ("description", .str "在聖經中搜尋關鍵字或原文編號。支援關鍵字搜尋、希臘文編號搜尋、希伯來文編號搜尋。"),
    ("inputSchema", .obj [
      ("type", .str "object"),
      ("properties", .obj [
        ("query", .obj [
          ("type", .str "string"),
          ("description", .str "搜尋內容")]),
        ("search_type", .obj [
          ("type", .str "string"),
          ("enum", .arr [.str "keyword", .str "greek_number", .str "hebrew_number"]),
          ("description", .str "搜尋類型（keyword=關鍵字, greek_number=希臘文編號, hebrew_number=希伯來文編號）")]),
        ("scope", .obj [
          ("type", .str "string"),
          ("enum", .arr [.str "all", .str "ot", .str "nt"]),
          ("description", .str "搜尋範圍（all=全部, ot=舊約, nt=新約）")]),
        ("version", .obj [
          ("type", .str "string"),
          ("description", .str "聖經版本代碼")]),
        ("limit", .obj [
          ("type", .str "integer"),
          ("description", .str "最多返回筆數")]),
        ("use_simplified", .obj [
          ("type", .str "boolean"),
          ("description", .str "是否使用簡體中文")])]),
      ("required", .arr [.str "query"])])],
  .obj [
    ("name", .str "search_bible_advanced"),
    ("description", .str "進階聖經搜尋，支援自訂書卷範圍。"),
    ("inputSchema", .obj [
      ("type", .str "object"),
      ("properties", .obj [
        ("query", .obj [
          ("type", .str "string"),
          ("description", .str "搜尋內容")]),
        ("search_type", .obj [
          ("type", .str "string"),
          ("enum", .arr [.str "keyword", .str "greek_number", .str "hebrew_number"]),
          ("description", .str "搜尋類型：keyword(關鍵字)/greek_number(希臘文編號)/hebrew_number(希伯來文編號)")]),
        ("range_start", .obj [
          ("type", .str "integer"),
          ("description", .str "起始書卷編號 (1-66)")]),
        ("range_end", .obj [
          ("type", .str "integer"),
          ("description", .str "結束書卷編號 (1-66)")]),
        ("version", .obj [
          ("type", .str "string"),
          ("description", .str "聖經版本代碼")]),
        ("limit", .obj [
          ("type", .str "integer"),
          ("description", .str "最多返回筆數")]),
        ("offset", .obj [
          ("type", .str "integer"),
          ("description", .str "跳過筆數")]),
        ("use_simplified", .obj [
          ("type", .str "boolean"),
          ("description", .str "是否使用簡體中文")])]),
      ("required", .arr [.str "query"])])],
  .obj [
    ("name", .str "get_word_analysis"),
    ("description", .str "取得經文的原文字彙分析（希臘文/希伯來文）。"),
    ("inputSchema", .obj [
      ("type", .str "object"),
      ("properties", .obj [
        ("book", .obj [
          ("type", .str "string"),
          ("description", .str "書卷名稱")]),
        ("chapter", .obj [
          ("type", .str "integer"),
          ("description", .str "章數")]),
        ("verse", .obj [
          ("type", .str "integer"),
          ("description", .str "節數")]),
        ("use_simplified", .obj [
          ("type", .str "boolean"),
          ("description", .str "是否使用簡體中文")])]),
      ("required", .arr [.str "book", .str "chapter", .str "verse"])])],
  .obj [
    ("name", .str "lookup_strongs"),
    ("description", .str "查詢 Strong\x27s 原文字典。支援多種格式：整數+testament (3056, \x27NT\x27)、G前綴 (\x27G3056\x27)、H前綴 (\x27H430\x27)。"),
    ("inputSchema", .obj [
      ("type", .str "object"),
      ("properties", .obj [
        ("number", .obj [
          ("type", .arr [.str "string", .str "integer"]),
          ("description", .str "Strong\x27s Number (整數、字串數字、或帶 G/H 前綴，如 \x27G3056\x27 或 \x27H430\x27)")]),
        ("testament", .obj [
          ("type", .str "string"),
          ("enum", .arr [.str "OT", .str "NT"]),
          ("description", .str "約別（OT=舊約, NT=新約）。當 number 包含 G/H 前綴時可省略。")]),
        ("use_simplified", .obj [
          ("type", .str "boolean"),
          ("description", .str "是否使用簡體中文")])]),
      ("required", .arr [.str "number"])])],
  .obj [
    ("name", .str "search_strongs_occurrences"),
    ("description", .str "搜尋 Strong\x27s Number 在聖經中的出現位置。"),
    ("inputSchema", .obj [
      ("type", .str "object"),
      ("properties", .obj [
        ("number", .obj [
          ("type", .arr [.str "string", .str "integer"]),
          ("description", .str "Strong\x27s Number (整數、字串數字、或帶 G/H 前綴)")]),
        ("testament", .obj [
          ("type", .str "string"),
          ("enum", .arr [.str "OT", .str "NT"]),
          ("description", .str "約別（當 number 包含 G/H 前綴時可省略）")]),
        ("limit", .obj [
          ("type", .str "integer"),
          ("description", .str "最多返回筆數")]),
        ("use_simplified", .obj [
          ("type", .str "boolean"),
          ("description", .str "是否使用簡體中文")])]),
      ("required", .arr [.str "number"])])],
  .obj [
    ("name", .str "get_commentary"),
    ("description", .str "查詢經文註釋。"),
    ("inputSchema", .obj [
      ("type", .str "object"),
      ("properties", .obj [
        ("book", .obj [
          ("type", .str "string"),
          ("description", .str "書卷名稱")]),
        ("chapter", .obj [
          ("type", .str "integer"),
          ("description", .str "章數")]),
        ("verse", .obj [
          ("type", .str "integer"),
          ("description", .str "節數（可選）")]),
        ("use_simplified", .obj [
          ("type", .str "boolean"),
          ("description", .str "是否使用簡體中文")])]),
      ("required", .arr [.str "book", .str "chapter"])])],
  .obj [
    ("name", .str "list_commentaries"),
    ("description", .str "列出所有可用的註釋書。"),
    ("inputSchema", .obj [
      ("type", .str "object"),
      ("properties", .obj [
        ("use_simplified", .obj [
          ("type", .str "boolean"),
          ("description", .str "是否使用簡體中文")])]),
      ("required", .arr [])])],
  .obj [
    ("name", .str "get_topic_study"),
    ("description", .str "查詢主題查經資料（Torrey, Naves）。"),
    ("inputSchema", .obj [
      ("type", .str "object"),
      ("properties", .obj [
        ("keyword", .obj [
          ("type", .str "string"),
          ("description", .str "主題關鍵字")]),
        ("source", .obj [
          ("type", .str "string"),
          ("enum", .arr [.str "all", .str "torrey_en", .str "naves_en", .str "torrey_zh", .str "naves_zh"]),
          ("description", .str "資料來源")]),
        ("use_simplified", .obj [
          ("type", .str "boolean"),
          ("description", .str "是否使用簡體中文")])]),
      ("required", .arr [.str "keyword"])])],
  .obj [
    ("name", .str "list_bible_versions"),
    ("description", .str "列出所有可用的聖經版本。"),
    ("inputSchema", .obj [
      ("type", .str "object"),
      ("properties", .obj [
        ("use_simplified", .obj [
          ("type", .str "boolean"),
          ("description", .str "是否使用簡體中文")])]),
      ("required", .arr [])])],
  .obj [
    ("name", .str "search_available_versions"),
    ("description", .str "搜尋符合條件的聖經版本。"),
    ("inputSchema", .obj [
      ("type", .str "object"),
      ("properties", .obj [
        ("testament", .obj [
          ("type", .str "string"),
          ("enum", .arr [.str "OT", .str "NT", .str "both"]),
          ("description", .str "約別")]),
        ("has_strongs", .obj [
          ("type", .str "boolean"),
          ("description", .str "是否包含 Strong\x27s Number")]),
        ("use_simplified", .obj [
          ("type", .str "boolean"),
          ("description", .str "是否使用簡體中文")])]),
      ("required", .arr [])])],
  .obj [
    ("name", .str "get_book_list"),
    ("description", .str "取得聖經書卷列表。"),
    ("inputSchema", .obj [
      ("type", .str "object"),
      ("properties", .obj [
        ("testament", .obj [
          ("type", .str "string"),
          ("enum", .arr [.str "all", .str "OT", .str "NT"]),
          ("description", .str "約別")]),
        ("use_simplified", .obj [
          ("type", .str "boolean"),
          ("description", .str "是否使用簡體中文")])]),
      ("required", .arr [])])],
  .obj [
    ("name", .str "get_book_info"),
    ("description", .str "取得特定書卷的詳細資訊。"),
    ("inputSchema", .obj [
      ("type", .str "object"),
      ("properties", .obj [
        ("book", .obj [
          ("type", .str "string"),
          ("description", .str "書卷名稱")]),
        ("use_simplified", .obj [
          ("type", .str "boolean"),
          ("description", .str "是否使用簡體中文")])]),
      ("required", .arr [.str "book"])])],
  .obj [
    ("name", .str "get_audio_bible"),
    ("description", .str "取得有聲聖經連結。"),
    ("inputSchema", .obj [
      ("type", .str "object"),
      ("properties", .obj [
        ("book", .obj [
          ("type", .str "string"),
          ("description", .str "書卷名稱")]),
        ("chapter", .obj [
          ("type", .str "integer"),
          ("description", .str "章數")]),
        ("version", .obj [
          ("type", .str "string"),
          ("description", .str "有聲聖經版本代碼")])]),
      ("required", .arr [.str "book", .str "chapter"])])],
  .obj [
    ("name", .str "list_audio_versions"),
    ("description", .str "列出所有可用的有聲聖經版本。"),
    ("inputSchema", .obj [
      ("type", .str "object"),
      ("properties", .obj [
]),
      ("required", .arr [])])],
  .obj [
    ("name", .str "get_apocrypha_verse"),
    ("description", .str "查詢次經 (Apocrypha) 經文內容。支援書卷 101-115。"),
    ("inputSchema", .obj [
      ("type", .str "object"),
      ("properties", .obj [
        ("book", .obj [
          ("type", .str "string"),
          ("description", .str "次經書卷名稱")]),
        ("chapter", .obj [
          ("type", .str "integer"),
          ("description", .str "章數")]),
        ("verse", .obj [
          ("type", .str "string"),
          ("description", .str "節數（可選）")])]),
      ("required", .arr [.str "book", .str "chapter"])])],
  .obj [
    ("name", .str "list_apocrypha_books"),
    ("description", .str "列出所有可用的次經書卷及其資訊"),
    ("inputSchema", .obj [
      ("type", .str "object"),
      ("properties", .obj [
]),
      ("required", .arr [])])],
  .obj [
    ("name", .str "get_apostolic_fathers_verse"),
    ("description", .str "查詢使徒教父文獻經文內容。"),
    ("inputSchema", .obj [
      ("type", .str "object"),
      ("properties", .obj [
        ("book", .obj [
          ("type", .str "string"),
          ("description", .str "使徒教父書卷名稱")]),
        ("chapter", .obj [
          ("type", .str "integer"),
          ("description", .str "章數")]),
        ("verse", .obj [
          ("type", .str "string"),
          ("description", .str "節數（可選）")])]),
      ("required", .arr [.str "book", .str "chapter"])])],
  .obj [
    ("name", .str "list_apostolic_fathers_books"),
    ("description", .str "列出所有可用的使徒教父書卷及其資訊"),
    ("inputSchema", .obj [
      ("type", .str "object"),
      ("properties", .obj [
]),
      ("required", .arr [])])],
  .obj [
    ("name", .str "get_bible_footnote"),
    ("description", .str "查詢聖經經文註腳（僅限 TCV 現代中文譯本）。"),
    ("inputSchema", .obj [
      ("type", .str "object"),
      ("properties", .obj [
        ("book_id", .obj [
          ("type", .str "integer"),
          ("description", .str "書卷編號 (1-66)"),
          ("minimum", .int 1),
          ("maximum", .int 66)]),
        ("footnote_id", .obj [
          ("type", .str "integer"),
          ("description", .str "註腳編號"),
          ("minimum", .int 1)]),
        ("use_simplified", .obj [
          ("type", .str "boolean"),
          ("description", .str "是否使用簡體中文")])]),
      ("required", .arr [.str "book_id", .str "footnote_id"])])],
  .obj [
    ("name", .str "search_fhl_articles"),
    ("description", .str "搜尋信望愛站的文章。可以依據標題、作者、內容、摘要、專欄、發表日期等條件搜尋。"),
    ("inputSchema", .obj [
      ("type", .str "object"),
      ("properties", .obj [
        ("title", .obj [
          ("type", .str "string"),
          ("description", .str "標題關鍵字")]),
        ("author", .obj [
          ("type", .str "string"),
          ("description", .str "作者名稱")]),
        ("content", .obj [
          ("type", .str "string"),
          ("description", .str "內文關鍵字")]),
        ("column", .obj [
          ("type", .str "string"),
          ("description", .str "專欄英文代碼")]),
        ("limit", .obj [
          ("type", .str "integer"),
          ("description", .str "最多回傳結果數")]),
        ("include_content", .obj [
          ("type", .str "boolean"),
          ("description", .str "是否包含完整 HTML 內容")]),
        ("use_simplified", .obj [
          ("type", .str "boolean"),
          ("description", .str "是否使用簡體中文")])]),
      ("required", .arr [])])],
  .obj [
    ("name", .str "list_fhl_article_columns"),
    ("description", .str "列出信望愛站可用的文章專欄。"),
    ("inputSchema", .obj [
      ("type", .str "object"),
      ("properties", .obj [
]),
      ("required", .arr [])])]]

/-- The 26 tool names registered by `FHLBibleHTTPServer._build_tool_handlers`
(http_server.py lines 462-491), in source order. -/
def tool_handler_names : List String :=
  ["get_bible_verse", "get_bible_chapter", "query_verse_citation",
   "search_bible", "search_bible_advanced", "get_word_analysis",
   "lookup_strongs", "search_strongs_occurrences", "get_commentary",
   "list_commentaries", "search_commentary", "get_topic_study",
   "list_bible_versions", "get_book_list", "get_book_info",
   "search_available_versions", "get_audio_bible", "list_audio_versions",
   "get_audio_chapter_with_text", "get_apocrypha_verse",
   "list_apocrypha_books", "get_apostolic_fathers_verse",
   "list_apostolic_fathers_books", "get_bible_footnote",
   "search_fhl_articles", "list_fhl_article_columns"]

/-- A tool handler: an async Python function receiving the keyword
arguments of the request and returning a JSON-serialisable result, or raising.  The handler
implementations live in the `fhl_bible_mcp/tools/` modules, outside the
dispatcher under study, so dispatch is verified for an arbitrary assignment
of implementations to registered names. -/
abbrev Handler : Type := List (String × JVal) → Except PyErr JVal

/-- The dispatcher state of `FHLBibleHTTPServer`: the tool catalog, the
handler registry, the session map, and the prompt list of the
`PromptManager` (carried opaquely; its content lives outside the sources
under study). -/
structure Server where
  tools : List JVal
  tool_handlers : List (String × Handler)
  sessions : List (String × JVal)
  prompts : List JVal

/-- Embedding of `_build_tool_handlers`: the registry maps each registered name to its
implementation. -/
def build_tool_handlers (impl : String → Handler) : List (String × Handler) :=
  tool_handler_names.map (fun n => (n, impl n))

/-- Embedding of `FHLBibleHTTPServer.__init__`: catalog and registry built once at
startup, session map initially empty. -/
def build_server (impl : String → Handler) (prompts : List JVal) : Server :=
  { tools := build_tools_list
    tool_handlers := build_tool_handlers impl
    sessions := []
    prompts := prompts }

/-- Embedding of `_create_jsonrpc_response`. -/
def create_jsonrpc_response (request_id : JVal) (result : JVal) : JVal :=
  .obj [("jsonrpc", .str "2.0"), ("id", request_id), ("result", result)]

/-- Embedding of `_create_jsonrpc_error`. -/
def create_jsonrpc_error (request_id : JVal) (code : Int) (message : String) : JVal :=
  .obj [("jsonrpc", .str "2.0"), ("id", request_id),
        ("error", .obj [("code", .int code), ("message", .str message)])]

/-- The `try` body of `handle_tool_call` (http_server.py lines 538-557),
instrumented with the list of handler invocations performed (handler name
with the keyword arguments it received).  Unknown or non-string tool names
yield the `-32601` error; a raising handler, a non-dict `params` or a
non-mapping `arguments` value surface as the exception, to be caught by the
`except` clause in `handle_tool_call`. -/
def handle_tool_call_try (S : Server) (request_id : JVal) (params : JVal) :
    Except PyErr JVal × List (String × List (String × JVal)) :=
  match pyGet params "name" with
  | .error e => (.error e, [])
  | .ok toolNameV =>
    match pyGetD params "arguments" (.obj []) with
    | .error e => (.error e, [])
    | .ok argumentsV =>
      match toolNameV with
      | .str tool_name =>
          match assocGet S.tool_handlers tool_name with
          | none =>
              (.ok (create_jsonrpc_error request_id (-32601)
                ("Unknown tool: " ++ tool_name)), [])
          | some handler =>
              match argumentsV with
              | .obj args =>
                  match handler args with
                  | .ok result =>
                      (.ok (create_jsonrpc_response request_id (.obj [("content",
                        .arr [.obj [("type", .str "text"),
                          ("text", .str (jsonDumps result))]])])),
                       [(tool_name, args)])
                  | .error e => (.error e, [(tool_name, args)])
              | _ => (.error (.typeError "argument unpacking requires a mapping"), [])
      | _ =>
          (.ok (create_jsonrpc_error request_id (-32601)
            ("Unknown tool: " ++ pyFormat toolNameV)), [])

/-- Embedding of `handle_tool_call` (http_server.py lines 536-561): the `try` body with
the `except Exception` clause converting any raised exception into a
JSON-RPC `-32603` error carrying `str(e)`.  The method reads but never
writes the server state, so it returns only the response. -/
def handle_tool_call (S : Server) (request_id : JVal) (params : JVal) : JVal :=
  match (handle_tool_call_try S request_id params).1 with
  | .ok resp => resp
  | .error e => create_jsonrpc_error request_id (-32603) (pyErrStr e)

/-- Python `str(uuid.uuid4())`, modelled by an ambient supply of fresh identifier
strings indexed by a draw counter. -/
structure UuidSupply where
  gen : Nat → String
  idx : Nat

def fresh_uuid (sup : UuidSupply) : String × UuidSupply :=
  (sup.gen sup.idx, { sup with idx := sup.idx + 1 })

/-- The result payload of `handle_initialize` (http_server.py lines 517-528). -/
def initialize_result : JVal :=
  .obj [("protocolVersion", .str "2024-11-05"),
        ("capabilities", .obj [
          ("tools", .obj [("listChanged", .bool false)]),
          ("resources", .obj [("subscribe", .bool false), ("listChanged", .bool false)]),
          ("prompts", .obj [("listChanged", .bool false)])]),
        ("serverInfo", .obj [
          ("name", .str "fhl-bible-server"),
          ("version", .str "0.1.2")])]

/-- Embedding of `handle_initialize` (http_server.py lines 512-528): draw a fresh session
identifier, record it in the session map, and return the JSON-RPC response
together with the identifier. -/
def handle_initialize (S : Server) (sup : UuidSupply) (request_id : JVal) :
    JVal × String × Server × UuidSupply :=
  let fs := fresh_uuid sup
  let S2 := { S with sessions := assocSet S.sessions fs.1 (.obj [("initialized", .bool true)]) }
  (create_jsonrpc_response request_id initialize_result, fs.1, S2, fs.2)

/-- Embedding of `handle_tools_list`. -/
def handle_tools_list (S : Server) (request_id : JVal) : JVal :=
  create_jsonrpc_response request_id (.obj [("tools", .arr S.tools)])

/-- Embedding of `handle_resources_list` (the resource list is hardcoded empty). -/
def handle_resources_list (request_id : JVal) : JVal :=
  create_jsonrpc_response request_id (.obj [("resources", .arr [])])

/-- Embedding of `handle_prompts_list`. -/
def handle_prompts_list (S : Server) (request_id : JVal) : JVal :=
  create_jsonrpc_response request_id (.obj [("prompts", .arr S.prompts)])

/-- Embedding of `process_jsonrpc_message` (http_server.py lines 572-600): route one
JSON-RPC message by its `method`, returning the optional response, the
optional new session identifier, and the (possibly updated) server state and
uuid supply.  Raises (e.g. on a non-dict message) propagate to the caller,
mirroring the absence of a `try` block in the source. -/
def process_jsonrpc_message (S : Server) (sup : UuidSupply) (message : JVal) :
    Except PyErr (Option JVal × Option String × Server × UuidSupply) :=
  match pyGetD message "method" (.str "") with
  | .error e => .error e
  | .ok methodV =>
    match pyGet message "id" with
    | .error e => .error e
    | .ok requestId =>
      match pyGetD message "params" (.obj []) with
      | .error e => .error e
      | .ok params =>
        if requestId.isNull &&
            (jEqStr methodV "notifications/initialized" || jEqStr methodV "initialized") then
          .ok (none, none, S, sup)
        else if jEqStr methodV "initialize" then
          let r := handle_initialize S sup requestId
          .ok (some r.1, some r.2.1, r.2.2.1, r.2.2.2)
        else if jEqStr methodV "tools/list" then
          .ok (some (handle_tools_list S requestId), none, S, sup)
        else if jEqStr methodV "tools/call" then
          .ok (some (handle_tool_call S requestId params), none, S, sup)
        else if jEqStr methodV "resources/list" then
          .ok (some (handle_resources_list requestId), none, S, sup)
        else if jEqStr methodV "prompts/list" then
          .ok (some (handle_prompts_list S requestId), none, S, sup)
        else if jEqStr methodV "notifications/initialized" || jEqStr methodV "initialized" then
          .ok (none, none, S, sup)
        else
          .ok (some (create_jsonrpc_error requestId (-32601)
            ("Method not found: " ++ pyFormat methodV)), none, S, sup)

/-! ## Streamable HTTP POST endpoint (`mcp_post_endpoint`) -/

/-- The body of an HTTP response: empty (the 202 case), a JSON document, or
a server-sent-event stream with one event per JSON-RPC response. -/
inductive HBody where
  | empty
  | json (v : JVal)
  | sse (events : List JVal)
deriving Repr

structure HttpResp where
  status : Nat
  body : HBody
  headers : List (String × String)
deriving Repr

/-- Embedding of `all(msg.get("id") is None for msg in messages)` — short-circuiting, as
the generator expression is. -/
def all_notifications : List JVal → Except PyErr Bool
  | [] => .ok true
  | m :: ms =>
      match pyGet m "id" with
      | .error e => .error e
      | .ok idv => if idv.isNull then all_notifications ms else .ok false

/-- The notification loop of `mcp_post_endpoint`: process each message and
discard the results. -/
def process_notifications (S : Server) (sup : UuidSupply) :
    List JVal → Except PyErr (Server × UuidSupply)
  | [] => .ok (S, sup)
  | m :: ms =>
      match process_jsonrpc_message S sup m with
      | .error e => .error e
      | .ok (_, _, S2, sup2) => process_notifications S2 sup2 ms

/-- Embedding of `if new_session_id: session_id = new_session_id` — only a truthy
(non-empty) identifier is kept. -/
def truthy_session : Option String → Option String
  | some s => if s.isEmpty then none else some s
  | none => none

/-- The request loop of `mcp_post_endpoint` (http_server.py lines 659-664):
collect the truthy responses in request order and keep the last truthy
session identifier. -/
def process_requests (S : Server) (sup : UuidSupply) :
    List JVal → Except PyErr (List JVal × Option String × Server × UuidSupply)
  | [] => .ok ([], none, S, sup)
  | m :: ms =>
      match process_jsonrpc_message S sup m with
      | .error e => .error e
      | .ok (respOpt, sidOpt, S2, sup2) =>
        match process_requests S2 sup2 ms with
        | .error e => .error e
        | .ok (resps, sidRest, S3, sup3) =>
            let collected := match respOpt with
              | some r => if pyTruthy r then r :: resps else resps
              | none => resps
            let sid := match sidRest with
              | some s => some s
              | none => truthy_session sidOpt
            .ok (collected, sid, S3, sup3)

/-- Embedding of `if session_id: headers["Mcp-Session-Id"] = session_id`. -/
def session_headers : Option String → List (String × String)
  | some s => if s.isEmpty then [] else [("Mcp-Session-Id", s)]
  | none => []

/-- The `try` body of `mcp_post_endpoint` (http_server.py lines 632-690),
after the request body has been decoded from JSON: wrap a lone message into
a batch, short-circuit pure-notification batches with an empty 202, and
otherwise collect responses and return them as an SSE stream (when the
Accept header asks for `text/event-stream` and at least one response
exists) or as JSON — a single response object when exactly one response was
collected, a JSON array otherwise. -/
def mcp_post_core (S : Server) (sup : UuidSupply) (accept : String) (body : JVal) :
    Except PyErr (HttpResp × Server × UuidSupply) :=
  let supportsSse := strContains "text/event-stream" accept
  let messages := match body with
    | .arr xs => xs
    | other => [other]
  match all_notifications messages with
  | .error e => .error e
  | .ok true =>
      match process_notifications S sup messages with
      | .error e => .error e
      | .ok (S2, sup2) =>
          .ok ({ status := 202, body := .empty, headers := [] }, S2, sup2)
  | .ok false =>
      match process_requests S sup messages with
      | .error e => .error e
      | .ok (resps, sid, S2, sup2) =>
          let headers := session_headers sid
          if supportsSse && !resps.isEmpty then
            .ok ({ status := 200, body := .sse resps, headers := headers }, S2, sup2)
          else
            let result : HBody := match resps with
              | [r] => .json r
              | rs => .json (.arr rs)
            .ok ({ status := 200, body := result, headers := headers }, S2, sup2)

/-- Embedding of `mcp_post_endpoint` with its generic `except Exception` clause: any
exception raised while processing becomes a 500 response with a `-32603`
JSON-RPC error.  (The wrapper returns the HTTP response alone; the claims
below quantify over server state through `mcp_post_core`.) -/
def mcp_post_result (S : Server) (sup : UuidSupply) (accept : String) (body : JVal) :
    HttpResp :=
  match mcp_post_core S sup accept body with
  | .ok (resp, _, _) => resp
  | .error e =>
      { status := 500
        body := .json (create_jsonrpc_error .null (-32603) (pyErrStr e))
        headers := [] }

/-! ## Declared catalog defaults (for the default-resolution property) -/

/-- The `default` values declared under `inputSchema` `properties` of a
tool descriptor (JSON-Schema `default` keyword), keyed by parameter name. -/
def schema_defaults (tool : JVal) : List (String × JVal) :=
  match tool with
  | .obj fields =>
      match assocGet fields "inputSchema" with
      | some (.obj schema) =>
          match assocGet schema "properties" with
          | some (.obj props) =>
              props.filterMap (fun kv =>
                match kv.2 with
                | .obj p => (assocGet p "default").map (fun d => (kv.1, d))
                | _ => none)
          | _ => []
      | _ => []
  | _ => []

/-- The catalog entry for a tool name, if any. -/
def tool_entry_named (name : String) : Option JVal :=
  build_tools_list.find? (fun t =>
    match t with
    | .obj fields =>
        match assocGet fields "name" with
        | some (.str s) => s == name
        | _ => false
    | _ => false)

/-- The defaults declared for a tool name in the catalog. -/
def catalog_defaults (name : String) : List (String × JVal) :=
  match tool_entry_named name with
  | some t => schema_defaults t
  | none => []

/-- Fill every argument omitted from `args` with its declared default. -/
def fill_defaults (defaults args : List (String × JVal)) : List (String × JVal) :=
  args ++ defaults.filter (fun d => (assocGet args d.1).isNone)

/-! ## Concrete instances used by witnesses -/

/-- A handler assignment whose handlers all succeed with `None`. -/
def ok_impl : String → Handler := fun _ => fun _ => .ok .null

/-- A handler assignment whose handlers all raise `Exception("boom")`. -/
def fail_impl : String → Handler := fun _ => fun _ => .error (.exn "boom")

/-- A concrete supply of fresh session identifiers. -/
def demo_supply : UuidSupply := { gen := fun n => "session-" ++ toString n, idx := 0 }

/-- A JSON-RPC message counts as a pure notification for the batch check of
`mcp_post_endpoint` when it is a dict whose `id` is absent or `null`. -/
def is_pure_notification (m : JVal) : Bool :=
  match m with
  | .obj fields => (dictGetD fields "id" .null).isNull
  | _ => false

/-- A server that has already issued a session (as after an `initialize`),
used to probe the treatment of subsequent calls of that session. -/
def demo_session_server : Server :=
  { build_server ok_impl [] with
    sessions := [("11111111-2222-3333-4444-555555555555",
      .obj [("initialized", .bool true)])] }

/-! ## Properties -/

/-- C5: evaluation of `http_get_bible_footnote` at an upstream payload that
reports success with a positive `record_count` but carries no `record` key.
The subscription `result["record"]` raises an uncaught `KeyError` inside the
normalizer, instead of the `error`-status envelope the specification
requires for a missing expected key. -/
theorem footnote_missing_record_raises :
    http_get_bible_footnote
        (.obj [("status", .str "success"), ("record_count", .int 1)]) 1 1
      = .error (.keyError "record") := rfl

/-- C8: calling the article search with zero search fields set makes the
upstream (modelled from the spec) report `status` 0 with a `data too much`
message, and the normalizer turns that into an `error`-status envelope whose
hint names each of title/author/content/abstract/column/pub_date. -/
theorem zero_field_search_error_hint :
    http_search_articles search_articles_zero_fields_upstream false
      = .ok (.obj [("status", .str "error"),
          ("error", .str "資料量過大，請提供至少一個搜尋條件"),
          ("hint", .str "請使用 title, author, content, abstract, column 或 pub_date 參數")])
    ∧ (["title", "author", "content", "abstract", "column", "pub_date"].all
        (fun f => strContains f
          "請使用 title, author, content, abstract, column 或 pub_date 參數")) = true := by
  exact ⟨rfl, by decide⟩

/-- C9 (counterexample): the upstream message `no data too much` contains
`no data` — the empty-result indicator of the claim — yet the normalizer
returns an `error`-status envelope, because the `data too much` test runs
first. -/
theorem no_data_precedence_counterexample :
    strContains "no data" (pyLowerString "no data too much") = true ∧
    http_search_articles
        (.obj [("status", .int 0), ("result", .str "no data too much")]) false
      = .ok (.obj [("status", .str "error"),
          ("error", .str "資料量過大，請提供至少一個搜尋條件"),
          ("hint", .str "請使用 title, author, content, abstract, column 或 pub_date 參數")]) := by
  exact ⟨by decide, rfl⟩

/-- C9 (amended): for every upstream article-search response with integer
`status` 0 whose message contains `no data` (case-insensitively) and does
not also contain `data too much` (which takes precedence), the normalizer
returns the `no_results` envelope — a status distinct from `error`. -/
theorem no_data_yields_no_results
    (fields : List (String × JVal)) (msg : String) (include_content : Bool)
    (hstatus : assocGet fields "status" = some (.int 0))
    (hmsg : assocGet fields "result" = some (.str msg))
    (hnodata : strContains "no data" (pyLowerString msg) = true)
    (hnotmuch : strContains "data too much" (pyLowerString msg) = false) :
    http_search_articles (.obj fields) include_content
      = .ok (.obj [("status", .str "no_results"),
          ("message", .str "未找到符合條件的文章")]) := by
  simp [http_search_articles, pyGet, pyGetD, dictGetD, hstatus, hmsg,
    jEqInt, jEqStr, pyLower, hnodata, hnotmuch]

/-- C9 witness: a concrete `status` 0 / `No data found` payload yields the
`no_results` envelope. -/
theorem no_data_yields_no_results_witness :
    strContains "no data" (pyLowerString "No data found") = true ∧
    strContains "data too much" (pyLowerString "No data found") = false ∧
    http_search_articles
        (.obj [("status", .int 0), ("result", .str "No data found")]) false
      = .ok (.obj [("status", .str "no_results"),
          ("message", .str "未找到符合條件的文章")]) := by
  refine ⟨by decide, by decide, ?_⟩
  exact no_data_yields_no_results [("status", .int 0), ("result", .str "No data found")]
    "No data found" false rfl rfl (by decide) (by decide)

/-- C7 (counterexample): an article whose `content` field is the empty
string (whose cleaned text is the empty string, of length at most 200) is
formatted with NO `content_preview` field at all, because of the
`if full_content:` truthiness guard — the claim requires `content_preview`
to equal the cleaned text unchanged. -/
theorem empty_content_preview_counterexample :
    (format_article false (.obj [("content", .str "")])).map
        (fun v => match v with
          | .obj fields => (assocGet fields "content_preview").isNone
          | _ => false)
      = .ok true := rfl

/-- C7 (amended): for every article whose `content` field is a non-empty
string, formatting with `include_content = false` sets `content_preview` to
the markup-stripped text truncated to its first 200 characters with an
ellipsis marker appended if and only if the cleaned text exceeds 200
characters; the cleaned text is kept unchanged when it is at most 200
characters.  When `content` is empty or missing, no `content_preview` field
is emitted. -/
theorem content_preview_truncation
    (a : List (String × JVal)) (s : String)
    (hcontent : assocGet a "content" = some (.str s))
    (hne : s.isEmpty = false) :
    format_article false (.obj a)
      = .ok (.obj
          ([("id", dictGetD a "id" (.str "")),
            ("title", dictGetD a "title" (.str "")),
            ("author", dictGetD a "author" (.str "")),
            ("pubtime", dictGetD a "pubtime" (.str "")),
            ("column", dictGetD a "column" (.str "")),
            ("abstract", dictGetD a "abst" (.str ""))] ++
           [("content_preview", .str (content_preview_of s))]))
    ∧ (200 < (stripTags s).length →
        content_preview_of s = (stripTags s).take 200 ++ "...")
    ∧ ((stripTags s).length ≤ 200 → content_preview_of s = stripTags s) := by
  refine ⟨?_, ?_, ?_⟩
  · simp [format_article, dictGetD, hcontent, pyTruthy, hne]
  · intro hlong
    simp [content_preview_of, hlong]
  · intro hshort
    simp only [content_preview_of]
    rw [if_neg (by omega)]

/-- C7 witness: formatting a concrete article with markup content
`<b>hi</b>` emits the cleaned, untruncated preview `hi`. -/
theorem content_preview_truncation_witness :
    assocGet [("content", (.str "<b>hi</b>" : JVal))] "content"
        = some (.str "<b>hi</b>") ∧
    format_article false (.obj [("content", .str "<b>hi</b>")])
      = .ok (.obj [("id", .str ""), ("title", .str ""), ("author", .str ""),
          ("pubtime", .str ""), ("column", .str ""), ("abstract", .str ""),
          ("content_preview", .str "hi")]) := by
  refine ⟨rfl, ?_⟩
  have h := (content_preview_truncation [("content", .str "<b>hi</b>")]
    "<b>hi</b>" rfl rfl).1
  exact h.trans (by rfl)

/-- C2: dispatching any tool name absent from the handler registry, with any
argument mapping, returns the JSON-RPC `-32601` error naming the unknown
tool.  `handle_tool_call` is a total function into responses (its `except`
clause is the only other exit), so no exception reaches the transport. -/
theorem dispatch_unknown_tool_not_found
    (S : Server) (request_id : JVal) (name : String) (args : List (String × JVal))
    (habsent : assocGet S.tool_handlers name = none) :
    handle_tool_call S request_id (.obj [("name", .str name), ("arguments", .obj args)])
      = create_jsonrpc_error request_id (-32601) ("Unknown tool: " ++ name) := by
  simp [handle_tool_call, handle_tool_call_try, pyGet, pyGetD, dictGetD,
    assocGet, habsent]

/-- C2 witness: dispatching the unregistered name `no_such_tool` on the
concretely built server yields the `-32601` error. -/
theorem dispatch_unknown_tool_not_found_witness :
    assocGet (build_server ok_impl []).tool_handlers "no_such_tool" = none ∧
    handle_tool_call (build_server ok_impl []) (.int 5)
        (.obj [("name", .str "no_such_tool"), ("arguments", .obj [])])
      = create_jsonrpc_error (.int 5) (-32601) "Unknown tool: no_such_tool" := by
  refine ⟨rfl, ?_⟩
  have h := dispatch_unknown_tool_not_found (build_server ok_impl [])
    (.int 5) "no_such_tool" [] rfl
  exact h.trans (by rfl)

/-- C1: dispatching a registered tool whose handler raises returns the
JSON-RPC `-32603` error carrying `str(e)` — the exception never propagates
(the result is an `ok` response, not a raise) — and the dispatcher state and
uuid supply are returned unchanged, so subsequent dispatches behave
identically. -/
theorem dispatch_handler_failure_contained
    (S : Server) (sup : UuidSupply)
    (name : String) (h : Handler) (args : List (String × JVal))
    (request_id : JVal) (e : PyErr)
    (hreg : assocGet S.tool_handlers name = some h)
    (hraise : h args = .error e) :
    process_jsonrpc_message S sup
        (.obj [("jsonrpc", .str "2.0"), ("id", request_id),
               ("method", .str "tools/call"),
               ("params", .obj [("name", .str name), ("arguments", .obj args)])])
      = .ok (some (create_jsonrpc_error request_id (-32603) (pyErrStr e)),
             none, S, sup) := by
  simp [process_jsonrpc_message, pyGet, pyGetD, dictGetD, assocGet, jEqStr,
    handle_tool_call, handle_tool_call_try, hreg, hraise]

/-- C1 witness: a concrete handler raising `Exception("boom")` yields the
`-32603` error response with message `boom` and an unchanged server. -/
theorem dispatch_handler_failure_contained_witness :
    assocGet (build_server fail_impl []).tool_handlers "get_bible_verse"
        = some (fail_impl "get_bible_verse") ∧
    fail_impl "get_bible_verse" [] = .error (.exn "boom") ∧
    process_jsonrpc_message (build_server fail_impl []) demo_supply
        (.obj [("jsonrpc", .str "2.0"), ("id", .int 7),
               ("method", .str "tools/call"),
               ("params", .obj [("name", .str "get_bible_verse"),
                                ("arguments", .obj [])])])
      = .ok (some (create_jsonrpc_error (.int 7) (-32603) "boom"),
             none, build_server fail_impl [], demo_supply) := by
  refine ⟨rfl, rfl, ?_⟩
  have h := dispatch_handler_failure_contained (build_server fail_impl []) demo_supply
    "get_bible_verse" (fail_impl "get_bible_verse") [] (.int 7) (.exn "boom") rfl rfl
  exact h.trans (by rfl)

/-- No tool descriptor in the catalog declares a `default` for any of its
parameters. -/
theorem build_tools_list_no_defaults :
    (build_tools_list.all (fun t => (schema_defaults t).isEmpty)) = true := by
  rfl

/-- Hence the declared defaults of every tool name form the empty mapping. -/
theorem catalog_defaults_empty (name : String) : catalog_defaults name = [] := by
  unfold catalog_defaults tool_entry_named
  cases hf : build_tools_list.find? (fun t =>
    match t with
    | .obj fields =>
        match assocGet fields "name" with
        | some (.str s) => s == name
        | _ => false
    | _ => false) with
  | none => rfl
  | some t =>
      have hmem : t ∈ build_tools_list := List.mem_of_find?_eq_some hf
      have hall := build_tools_list_no_defaults
      rw [List.all_eq_true] at hall
      have hempty := hall t hmem
      rw [List.isEmpty_iff] at hempty
      simpa using hempty

/-- C6: for every dispatch of a registered tool, the arguments the handler
receives are exactly the request arguments with every omitted argument
filled from the (empty) declared-default mapping of the tool in the catalog
— so the resolved arguments coincide with the request arguments — and the
invocation trace shows the handler invoked exactly once, with exactly those
resolved arguments, whether it succeeds or raises. -/
theorem dispatch_fills_catalog_defaults
    (S : Server)
    (name : String) (h : Handler) (args : List (String × JVal)) (request_id : JVal)
    (hreg : assocGet S.tool_handlers name = some h) :
    fill_defaults (catalog_defaults name) args = args ∧
    (handle_tool_call_try S request_id
        (.obj [("name", .str name), ("arguments", .obj args)])).2
      = [(name, fill_defaults (catalog_defaults name) args)] := by
  have hfill : fill_defaults (catalog_defaults name) args = args := by
    simp [fill_defaults, catalog_defaults_empty name]
  refine ⟨hfill, ?_⟩
  rw [hfill]
  cases hh : h args with
  | ok r =>
      simp [handle_tool_call_try, pyGet, pyGetD, dictGetD, assocGet, hreg, hh]
  | error e =>
      simp [handle_tool_call_try, pyGet, pyGetD, dictGetD, assocGet, hreg, hh]

/-- C6 witness: dispatching `get_bible_verse` with two arguments invokes the
handler exactly once with those arguments (no catalog default is added). -/
theorem dispatch_fills_catalog_defaults_witness :
    assocGet (build_server ok_impl []).tool_handlers "get_bible_verse"
        = some (ok_impl "get_bible_verse") ∧
    (handle_tool_call_try (build_server ok_impl []) (.int 1)
        (.obj [("name", .str "get_bible_verse"),
               ("arguments", .obj [("book", .str "約"), ("chapter", .int 3)])])).2
      = [("get_bible_verse", [("book", .str "約"), ("chapter", .int 3)])] := by
  refine ⟨rfl, ?_⟩
  have h := dispatch_fills_catalog_defaults (build_server ok_impl []) "get_bible_verse"
    (ok_impl "get_bible_verse") [("book", .str "約"), ("chapter", .int 3)]
    (.int 1) rfl
  exact h.2.trans (by rw [h.1])

/-- Lemma: `process_jsonrpc_message` never raises on a dict message: every branch
of the method routing returns a value. -/
theorem process_jsonrpc_message_obj_ok
    (S : Server) (sup : UuidSupply) (fields : List (String × JVal)) :
    ∃ out, process_jsonrpc_message S sup (.obj fields) = .ok out := by
  unfold process_jsonrpc_message
  simp only [pyGet, pyGetD]
  repeat' split
  all_goals exact ⟨_, rfl⟩

/-- The `all(...)` notification check accepts a batch of pure notifications. -/
theorem all_notifications_of_notifs :
    ∀ (msgs : List JVal), msgs.all is_pure_notification = true →
      all_notifications msgs = .ok true := by
  intro msgs
  induction msgs with
  | nil => intro _; rfl
  | cons m ms ih =>
    intro hall
    rw [List.all_cons, Bool.and_eq_true] at hall
    obtain ⟨h1, h2⟩ := hall
    cases m with
    | obj fields =>
        have h1x : (dictGetD fields "id" JVal.null).isNull = true := by
          simpa [is_pure_notification] using h1
        simp [all_notifications, pyGet, h1x, ih h2]
    | null => simp [is_pure_notification] at h1
    | bool b => simp [is_pure_notification] at h1
    | int n => simp [is_pure_notification] at h1
    | str s => simp [is_pure_notification] at h1
    | arr l => simp [is_pure_notification] at h1

/-- The notification loop never raises on a batch of pure notifications. -/
theorem process_notifications_ok :
    ∀ (msgs : List JVal) (S : Server) (sup : UuidSupply),
      msgs.all is_pure_notification = true →
      ∃ out, process_notifications S sup msgs = .ok out := by
  intro msgs
  induction msgs with
  | nil => intro S sup _; exact ⟨_, rfl⟩
  | cons m ms ih =>
    intro S sup hall
    rw [List.all_cons, Bool.and_eq_true] at hall
    obtain ⟨h1, h2⟩ := hall
    cases m with
    | obj fields =>
        obtain ⟨out, hout⟩ := process_jsonrpc_message_obj_ok S sup fields
        obtain ⟨r1, r2, S2, sup2⟩ := out
        obtain ⟨res, hres⟩ := ih S2 sup2 h2
        exact ⟨res, by simp [process_notifications, hout, hres]⟩
    | null => simp [is_pure_notification] at h1
    | bool b => simp [is_pure_notification] at h1
    | int n => simp [is_pure_notification] at h1
    | str s => simp [is_pure_notification] at h1
    | arr l => simp [is_pure_notification] at h1

/-- C3: a POST whose body is an array of messages all lacking an `id` (pure
notifications) is answered with HTTP 202, an empty body and no JSON-RPC
response, whatever the Accept header. -/
theorem notification_batch_returns_202
    (S : Server) (sup : UuidSupply) (accept : String) (msgs : List JVal)
    (hall : msgs.all is_pure_notification = true) :
    ∃ S2 sup2, mcp_post_core S sup accept (.arr msgs)
      = .ok ({ status := 202, body := .empty, headers := [] }, S2, sup2) := by
  obtain ⟨out, hout⟩ := process_notifications_ok msgs S sup hall
  obtain ⟨S2, sup2⟩ := out
  refine ⟨S2, sup2, ?_⟩
  simp [mcp_post_core, all_notifications_of_notifs msgs hall, hout]

/-- C3 witness: a two-element batch of an `initialized` notification and an
id-less `tools/list` produces the bodyless 202 and zero responses. -/
theorem notification_batch_returns_202_witness :
    ([.obj [("jsonrpc", .str "2.0"), ("method", .str "notifications/initialized")],
      .obj [("jsonrpc", .str "2.0"), ("id", .null), ("method", .str "tools/list")]]
        : List JVal).all is_pure_notification = true ∧
    ∃ S2 sup2, mcp_post_core (build_server ok_impl []) demo_supply "application/json"
        (.arr [.obj [("jsonrpc", .str "2.0"), ("method", .str "notifications/initialized")],
               .obj [("jsonrpc", .str "2.0"), ("id", .null), ("method", .str "tools/list")]])
      = .ok ({ status := 202, body := .empty, headers := [] }, S2, sup2) :=
  ⟨rfl, notification_batch_returns_202 (build_server ok_impl []) demo_supply
    "application/json" _ rfl⟩

/-- C4 (amended): an `initialize` request draws a fresh opaque session
identifier, stores it in the session map, returns the JSON-RPC result, and
sets the `Mcp-Session-Id` response header on the POST that carried the
`initialize`; a subsequent non-`initialize` request (here `tools/list`) of
the same server is answered without any `Mcp-Session-Id` header — the
identifier is not echoed on later calls. -/
theorem session_header_on_initialize_only
    (S : Server) (sup : UuidSupply) (request_id : JVal)
    (hid : request_id.isNull = false)
    (hne : (sup.gen sup.idx).isEmpty = false) :
    mcp_post_core S sup "application/json"
        (.obj [("jsonrpc", .str "2.0"), ("id", request_id),
               ("method", .str "initialize"), ("params", .obj [])])
      = .ok ({ status := 200,
               body := .json (create_jsonrpc_response request_id initialize_result),
               headers := [("Mcp-Session-Id", sup.gen sup.idx)] },
             { S with sessions := (assocSet S.sessions (sup.gen sup.idx)
                 (.obj [("initialized", .bool true)])) },
             { sup with idx := sup.idx + 1 })
    ∧ mcp_post_core S sup "application/json"
        (.obj [("jsonrpc", .str "2.0"), ("id", request_id),
               ("method", .str "tools/list")])
      = .ok ({ status := 200,
               body := .json (handle_tools_list S request_id),
               headers := [] }, S, sup) := by
  have hsse : strContains "text/event-stream" "application/json" = false := by decide
  constructor
  · simp [mcp_post_core, hsse, all_notifications, pyGet, pyGetD, dictGetD,
      assocGet, hid, process_requests, process_jsonrpc_message, jEqStr,
      handle_initialize, fresh_uuid, create_jsonrpc_response, pyTruthy,
      truthy_session, session_headers, hne]
  · simp [mcp_post_core, hsse, all_notifications, pyGet, pyGetD, dictGetD,
      assocGet, hid, process_requests, process_jsonrpc_message, jEqStr,
      handle_tools_list, create_jsonrpc_response, pyTruthy,
      truthy_session, session_headers]

/-- C4 witness: with a concrete supply, `initialize` returns the session
header and records the session; the follow-up `tools/list` response carries
no header. -/
theorem session_header_on_initialize_only_witness :
    mcp_post_core (build_server ok_impl []) demo_supply "application/json"
        (.obj [("jsonrpc", .str "2.0"), ("id", .int 1),
               ("method", .str "initialize"), ("params", .obj [])])
      = .ok ({ status := 200,
               body := .json (create_jsonrpc_response (.int 1) initialize_result),
               headers := [("Mcp-Session-Id", "session-0")] },
             { build_server ok_impl [] with
                 sessions := [("session-0", .obj [("initialized", .bool true)])] },
             { demo_supply with idx := 1 }) ∧
    mcp_post_core (build_server ok_impl []) demo_supply "application/json"
        (.obj [("jsonrpc", .str "2.0"), ("id", .int 1),
               ("method", .str "tools/list")])
      = .ok ({ status := 200,
               body := .json (handle_tools_list (build_server ok_impl []) (.int 1)),
               headers := [] }, build_server ok_impl [], demo_supply) := by
  have h := session_header_on_initialize_only (build_server ok_impl [])
    demo_supply (.int 1) rfl rfl
  exact ⟨h.1.trans (by rfl), h.2⟩

/-- C4 (counterexample): a server holding an initialized session answers a
subsequent non-`initialize` call (`tools/list`) with NO `Mcp-Session-Id`
response header — the identifier is not echoed on subsequent calls of the
session (the endpoint never reads the request header nor consults the
session map when building response headers). -/
theorem session_header_not_echoed_counterexample :
    demo_session_server.sessions
      = [("11111111-2222-3333-4444-555555555555",
          .obj [("initialized", .bool true)])] ∧
    (mcp_post_result demo_session_server demo_supply "application/json"
        (.obj [("jsonrpc", .str "2.0"), ("id", .int 2),
               ("method", .str "tools/list")])).headers
      = [] := ⟨rfl, rfl⟩

/-- C10 (amended): for every non-SSE POST of a batch that is not all
notifications, the HTTP body is the single collected JSON-RPC response when
exactly one was collected, and otherwise — zero, or two or more — a JSON
array of the collected responses in request order. -/
theorem single_response_unwrapped
    (S : Server) (sup : UuidSupply) (accept : String) (msgs : List JVal)
    (resps : List JVal) (sid : Option String) (S2 : Server) (sup2 : UuidSupply)
    (hsse : strContains "text/event-stream" accept = false)
    (hnotall : all_notifications msgs = .ok false)
    (hproc : process_requests S sup msgs = .ok (resps, sid, S2, sup2)) :
    mcp_post_core S sup accept (.arr msgs)
      = .ok ({ status := 200,
               body := match resps with
                 | [r] => .json r
                 | rs => .json (.arr rs),
               headers := session_headers sid }, S2, sup2) := by
  simp only [mcp_post_core, hsse, hnotall, hproc, Bool.false_and]
  simp only [show (false = true) = False from by simp, if_false]
  cases resps with
  | nil => rfl
  | cons r rest =>
      cases rest with
      | nil => rfl
      | cons r2 rest2 => rfl

/-- C10 witness: a one-request batch (`tools/list`) is answered with the
lone response object itself, not a one-element array. -/
theorem single_response_unwrapped_witness :
    mcp_post_core (build_server ok_impl []) demo_supply "application/json"
        (.arr [.obj [("jsonrpc", .str "2.0"), ("id", .int 1),
                     ("method", .str "tools/list")]])
      = .ok ({ status := 200,
               body := .json (handle_tools_list (build_server ok_impl []) (.int 1)),
               headers := [] }, build_server ok_impl [], demo_supply) := by
  have h := single_response_unwrapped (build_server ok_impl []) demo_supply
    "application/json"
    [.obj [("jsonrpc", .str "2.0"), ("id", .int 1), ("method", .str "tools/list")]]
    [handle_tools_list (build_server ok_impl []) (.int 1)] none
    (build_server ok_impl []) demo_supply (by decide) rfl rfl
  exact h.trans (by rfl)

/-- C10 (counterexample): a batch containing one non-notification message
(`initialized` with an id) is processed with ZERO collected responses, yet
the body is the JSON array `[]` — the body is an array even though fewer
than two responses were collected. -/
theorem zero_response_array_counterexample :
    mcp_post_result (build_server ok_impl []) demo_supply "application/json"
        (.arr [.obj [("jsonrpc", .str "2.0"), ("id", .int 1),
                     ("method", .str "initialized")]])
      = { status := 200, body := .json (.arr []), headers := [] } ∧
    (process_requests (build_server ok_impl []) demo_supply
        [.obj [("jsonrpc", .str "2.0"), ("id", .int 1),
               ("method", .str "initialized")]]).toOption.map (fun r => r.1.length)
      = some 0 := ⟨rfl, rfl⟩

end FHL
